import Mathlib

/-!
Shallow embedding of the training-supervision core of the ai-choreography
server: the WebSocket connection registry (`websocket_manager.py`,
duplicated in `Server.py`), the checkpoint/state-log watcher
(`log_monitor.py` / `Server.py`), the output-drain loop of
`run_training_async` (`Server.py`), and the HTTP training-control handlers
(`routes/training_routes.py` and `Server.py`).

Python dicts are modelled as insertion-ordered association lists, machine
floats (mtimes, losses, timeouts) as rationals, and the filesystem /
network environment as explicit function parameters.
-/

/-- Python truthiness of an optional string: `None` and `""` are falsy. -/
def pyTruthy : Option String → Bool
  | none => false
  | some s => !(s = "")

/-- `client_identifier or 'anonymous'` from `ConnectionManager.connect`. -/
def storedIdentifier (client_identifier : Option String) : String :=
  if pyTruthy client_identifier then client_identifier.getD "anonymous" else "anonymous"

/-- One entry of `ConnectionManager.active_connections`: the socket handle is
an abstract numeric id; `client_identifier` is the stored (defaulted) string. -/
structure ConnData where
  socket : Nat
  client_identifier : String
  deriving Repr, DecidableEq

/-- `ConnectionManager` state: `active_connections` is a Python dict keyed by
connection id (insertion-ordered, unique keys), plus the id counter. -/
structure ConnectionManager where
  active_connections : List (String × ConnData)
  connection_id_counter : Nat
  deriving Repr, DecidableEq

/-- Result of `ConnectionManager.connect`: the new manager state, the id
returned, and the sockets that were sent a close (code 1001) during eviction. -/
structure ConnectResult where
  manager : ConnectionManager
  connection_id : String
  closedSockets : List Nat
  deriving Repr, DecidableEq

/-- `ConnectionManager.connect` (websocket_manager.py lines 11-36, identical in
Server.py lines 114-149): accept, generate `conn_{counter}_{time}`; if the
identifier is truthy, close and delete every existing connection holding the
same identifier; then insert the new connection. -/
def ConnectionManager.connect (m : ConnectionManager) (socket : Nat)
    (client_identifier : Option String) (now : Nat) : ConnectResult :=
  let counter := m.connection_id_counter + 1
  let connection_id := "conn_" ++ toString counter ++ "_" ++ toString now
  let cid := client_identifier.getD ""
  let conns :=
    if pyTruthy client_identifier then
      m.active_connections.filter (fun p => !(decide (p.2.client_identifier = cid)))
    else m.active_connections
  let closed :=
    if pyTruthy client_identifier then
      (m.active_connections.filter (fun p => decide (p.2.client_identifier = cid))).map
        (fun p => p.2.socket)
    else []
  let newConn : ConnData :=
    { socket := socket, client_identifier := storedIdentifier client_identifier }
  { manager :=
      { active_connections := conns ++ [(connection_id, newConn)],
        connection_id_counter := counter },
    connection_id := connection_id,
    closedSockets := closed }

/-- One pass of `ConnectionManager.broadcast` over the connection dict in
iteration order: returns the ids delivered to and the ids whose send failed
(`failed_connections`), given which sockets fail. -/
def broadcastPass (sendFails : Nat → Bool) :
    List (String × ConnData) → List String × List String
  | [] => ([], [])
  | (cid, cd) :: rest =>
    let r := broadcastPass sendFails rest
    if sendFails cd.socket then (r.1, cid :: r.2) else (cid :: r.1, r.2)

/-- The post-pass removal loop of `broadcast`: `for conn_id in failed: if
conn_id in dict: del dict[conn_id]`. -/
def removeIds (conns : List (String × ConnData)) (ids : List String) :
    List (String × ConnData) :=
  ids.foldl (fun acc i => acc.filter (fun p => !(decide (p.1 = i)))) conns

/-- Result of `broadcast`: new manager plus the delivered / failed id lists. -/
structure BroadcastResult where
  manager : ConnectionManager
  delivered : List String
  failed : List String
  deriving Repr, DecidableEq

/-- `ConnectionManager.broadcast` (websocket_manager.py lines 57-69, identical
in Server.py lines 173-189): early return when no connections; otherwise
attempt `send_text` to every connection, accumulate failed ids, then delete
every failed id from the dict. -/
def ConnectionManager.broadcast (m : ConnectionManager) (sendFails : Nat → Bool) :
    BroadcastResult :=
  if m.active_connections.isEmpty then
    { manager := m, delivered := [], failed := [] }
  else
    let pass := broadcastPass sendFails m.active_connections
    { manager :=
        { m with active_connections := removeIds m.active_connections pass.2 },
      delivered := pass.1,
      failed := pass.2 }

/-- The module-global `TrainingState` of `state.py` / `Server.py`: the process
handle is an abstract pid, `start_time` an epoch-seconds rational. -/
structure TrainingState where
  is_training : Bool
  current_process : Option Nat
  current_stage : Nat
  current_epoch : Nat
  current_loss : ℚ
  start_time : Option ℚ
  deriving Repr, DecidableEq

/-- A decoded `training_state_*.json` snapshot (the fields `monitor_training_logs`
reads, with its `.get` defaults applied by the decoder). -/
structure StateLog where
  epoch : Nat
  loss : ℚ
  stage : Nat
  deriving Repr, DecidableEq

/-- Events the checkpoint watcher pushes onto the message queue. -/
inductive WatchEvent
  | training_update (epoch : Nat) (loss : ℚ) (stage : Nat) (elapsed : ℚ)
  | training_alert (level : String) (epoch : Nat)
  deriving Repr, DecidableEq

/-- Result of one watcher tick: updated shared state, updated `last_modified`
watermark, events pushed this tick (in push order). -/
structure WatcherTickResult where
  state : TrainingState
  last_modified : ℚ
  events : List WatchEvent
  deriving Repr, DecidableEq

/-- One iteration body of `monitor_training_logs` (log_monitor.py lines 19-56,
identical in Server.py lines 206-252). `latest` is the outcome of globbing
`training_state_*.json` and taking the max-mtime file together with its decoded
contents; `none` covers a missing directory, no matching file, or a decode
failure (the `except` path skips the tick). When the newest mtime is strictly
greater than the watermark the state is updated from the snapshot, one
`training_update` is queued (elapsed computed from `start_time`, 0 when unset),
the watermark advances, and a `critical` `training_alert` is additionally
queued when the decoded loss exceeds 500. -/
def monitorTick (st : TrainingState) (last_modified : ℚ)
    (latest : Option (ℚ × StateLog)) (now : ℚ) : WatcherTickResult :=
  match latest with
  | none => ⟨st, last_modified, []⟩
  | some (mtime, log_data) =>
    if mtime > last_modified then
      let st' := { st with
        current_epoch := log_data.epoch,
        current_loss := log_data.loss,
        current_stage := log_data.stage }
      let elapsed :=
        match st'.start_time with
        | some t0 => now - t0
        | none => 0
      let update := WatchEvent.training_update st'.current_epoch st'.current_loss
        st'.current_stage elapsed
      let events :=
        if log_data.loss > 500 then
          [update, WatchEvent.training_alert "critical" log_data.epoch]
        else [update]
      ⟨st', mtime, events⟩
    else ⟨st, last_modified, []⟩

/-- What the output-drain loop of `run_training_async` observes in one
iteration of its read step (Server.py lines 324-350): a non-empty output line,
an empty/whitespace readline, a 0.5 s `select` timeout with no data, or an
exception while reading. -/
inductive DrainTick
  | output
  | empty
  | noData
  | readError
  deriving Repr, DecidableEq

/-- Events the drain loop broadcasts from its read / hang-check steps. -/
inductive DrainEvent
  | consoleOutput
  | trainingAlert (level : String)
  deriving Repr, DecidableEq

/-- Result of running the drain loop over a tick trace: number of
`process.terminate()` calls issued by the hang branch, the events broadcast,
the ticks left unconsumed because the loop exited early (`break`), and the
final `output_timeout` accumulator. -/
structure DrainResult where
  terminates : Nat
  events : List DrainEvent
  remaining : List DrainTick
  finalTimeout : ℚ
  deriving Repr, DecidableEq

/-- The hang-detection core of the `while process.poll() is None and
training_state.is_training` loop of `run_training_async` (Server.py lines
312-369): `output_timeout` starts at 0, resets to 0 on a non-empty line,
grows by 0.5 on an empty line or a `select` timeout and by 1 on a read error;
when it exceeds `max_timeout = 300` the process is terminated, one
`training_alert` of level `error` is broadcast, and the loop breaks. The tick
list ends when the loop condition turns false (process exit or stop). The
message-queue forwarding interleaved in the same loop is modelled separately
by `monitorTick` (its events do not pass through this accumulator). -/
def drainLoop (output_timeout : ℚ) : List DrainTick → DrainResult
  | [] => ⟨0, [], [], output_timeout⟩
  | t :: rest =>
    let step : ℚ × List DrainEvent :=
      match t with
      | .output => ((0 : ℚ), [DrainEvent.consoleOutput])
      | .empty => (output_timeout + 1/2, [])
      | .noData => (output_timeout + 1/2, [])
      | .readError => (output_timeout + 1, [])
    if step.1 > 300 then
      { terminates := 1, events := step.2 ++ [DrainEvent.trainingAlert "error"],
        remaining := rest, finalTimeout := step.1 }
    else
      let r := drainLoop step.1 rest
      { terminates := r.terminates, events := step.2 ++ r.events,
        remaining := r.remaining, finalTimeout := r.finalTimeout }

/-- The `TrainingRequest` Pydantic model of `routes/training_routes.py`. -/
structure TrainingRequest where
  config_path : String
  stage : Nat
  resume_mode : String
  resume_checkpoint : Option String
  run_name : Option String
  preserve_logs : Bool
  deriving Repr, DecidableEq

/-- The module-global `training_status` dict of `routes/training_routes.py`
(including the `resume_mode` / `run_name` keys added by a successful start). -/
structure TrainingStatusRec where
  is_training : Bool
  stage : Option Nat
  config_path : Option String
  start_time : Option String
  current_epoch : Nat
  current_loss : ℚ
  process_id : Option Nat
  error : Option String
  resume_mode : Option String
  run_name : Option String
  deriving Repr, DecidableEq

/-- The resume-directive portion of the argv built by the routes
`start_training` handler (lines 256-267): `latest` appends the sentinel
`--resume latest`; `specific` with a truthy checkpoint appends
`--resume PATH` after validating the path (a missing path is an error
return); every other case (including `fresh`) appends nothing. -/
def routesResumeArgs (req : TrainingRequest) (checkpointExists : String → Bool) :
    Except String (List String) :=
  if req.resume_mode = "latest" then .ok ["--resume", "latest"]
  else if req.resume_mode = "specific" && pyTruthy req.resume_checkpoint then
    let c := req.resume_checkpoint.getD ""
    if checkpointExists c then .ok ["--resume", c]
    else .error ("Checkpoint file not found: " ++ c)
  else .ok []

/-- The full argv of the routes `start_training` handler for a request whose
resume validation passed (lines 249-274). -/
def routesBuildCmd (req : TrainingRequest) (resumeArgs : List String) : List String :=
  ["python", "scripts/train_bailando.py", "--config", req.config_path,
    "--stage", toString req.stage]
  ++ resumeArgs
  ++ (if pyTruthy req.run_name then ["--run-name", req.run_name.getD ""] else [])
  ++ (if req.preserve_logs then ["--preserve-logs"] else [])

/-- Outcome of the routes `start_training` handler: the HTTP status code of
the response (plain dict returns are served as 200), the JSON `success` /
`error` fields, the argv of the spawned child (`none` when nothing was
spawned), and the `training_status` dict afterwards. -/
structure RoutesStartResult where
  status_code : Nat
  success : Bool
  error : Option String
  spawned : Option (List String)
  status : TrainingStatusRec
  deriving Repr, DecidableEq

/-- `POST /api/training/start` of `routes/training_routes.py` (lines 227-341):
reject when `training_status['is_training']` (a dict return, so HTTP 200 with
`success: false`); reject when the config path does not exist; otherwise build
the argv, spawn, and overwrite the status dict with the running snapshot.
`pid` is the spawned child's pid and `nowIso` the `start_time` timestamp. -/
def routesStartTraining (st : TrainingStatusRec) (req : TrainingRequest)
    (configExists checkpointExists : String → Bool) (pid : Nat) (nowIso : String) :
    RoutesStartResult :=
  if st.is_training then
    { status_code := 200, success := false,
      error := some "Training is already in progress", spawned := none, status := st }
  else if !(configExists req.config_path) then
    { status_code := 200, success := false,
      error := some ("Configuration file not found: " ++ req.config_path),
      spawned := none, status := st }
  else
    match routesResumeArgs req checkpointExists with
    | .error e =>
      { status_code := 200, success := false, error := some e,
        spawned := none, status := st }
    | .ok resumeArgs =>
      let cmd := routesBuildCmd req resumeArgs
      { status_code := 200, success := true, error := none, spawned := some cmd,
        status :=
          { is_training := true, stage := some req.stage,
            config_path := some req.config_path, start_time := some nowIso,
            current_epoch := 0, current_loss := 0, process_id := some pid,
            error := none, resume_mode := some req.resume_mode,
            run_name := req.run_name } }

/-- Outcome of the routes `stop_training` handler: response fields, the status
dict, the global `training_process` handle afterwards, and whether
`terminate()` / `kill()` were called. -/
structure RoutesStopResult where
  status_code : Nat
  success : Bool
  error : Option String
  status : TrainingStatusRec
  processHandle : Option Nat
  terminated : Bool
  killed : Bool
  deriving Repr, DecidableEq

/-- `POST /api/training/stop` of `routes/training_routes.py` (lines 343-405):
reject (dict return, HTTP 200) unless a process handle exists and
`is_training`; otherwise set the stop event, `terminate()`, `wait(timeout=5)`,
`kill()` + `wait()` if the grace period expired (`gracefulExit` says whether
the child exited within it), then set `is_training=false`, clear
`process_id`, clear the handle. -/
def routesStopTraining (proc : Option Nat) (st : TrainingStatusRec)
    (gracefulExit : Bool) : RoutesStopResult :=
  match proc with
  | none =>
    { status_code := 200, success := false,
      error := some "No training process is currently running",
      status := st, processHandle := proc, terminated := false, killed := false }
  | some _ =>
    if !st.is_training then
      { status_code := 200, success := false,
        error := some "No training process is currently running",
        status := st, processHandle := proc, terminated := false, killed := false }
    else
      { status_code := 200, success := true, error := none,
        status := { st with is_training := false, process_id := none, error := none },
        processHandle := none, terminated := true, killed := !gracefulExit }

/-- A tracked child process as the status endpoints see it: `poll` is the
result of `Popen.poll()` (`none` while still running, the exit code once
exited). -/
structure PopenSim where
  poll : Option Int
  deriving Repr, DecidableEq

/-- Outcome of `GET /api/training/status`: the reconciled global handle and
status dict (the endpoint returns the latter). -/
structure StatusQueryResult where
  proc : Option PopenSim
  status : TrainingStatusRec
  deriving Repr, DecidableEq

/-- `GET /api/training/status` of `routes/training_routes.py` (lines 407-434):
when a handle is tracked and `is_training`, poll it; if it has exited,
reconcile `is_training`, `process_id` and `error` (non-zero exit code gives a
derived error message) and drop the handle, then return the snapshot. -/
def getTrainingStatus (proc : Option PopenSim) (st : TrainingStatusRec) :
    StatusQueryResult :=
  match proc with
  | some p =>
    if st.is_training then
      match p.poll with
      | some rc =>
        if !(rc = 0) then
          { proc := none,
            status := { st with
              is_training := false,
              process_id := none,
              error := some ("Process ended with exit code " ++ toString rc) } }
        else
          { proc := none,
            status := { st with
              is_training := false,
              process_id := none,
              error := none } }
      | none => { proc := proc, status := st }
    else { proc := proc, status := st }
  | none => { proc := proc, status := st }

/-- The completion record broadcast once by the monitor thread. -/
structure CompletionEvent where
  return_code : Int
  success : Bool
  deriving Repr, DecidableEq

/-- The end-of-process block of `threaded_monitor_training_process`
(`routes/training_routes.py` lines 163-200): after the read loop, `wait()`
yields the exit code; the status dict is reconciled (`error` set from the
exit code when non-zero, cleared when zero) and exactly one completion
message with `success`/`return_code` is broadcast. -/
def monitorCompletion (rc : Int) (st : TrainingStatusRec) :
    TrainingStatusRec × List CompletionEvent :=
  if rc = 0 then
    ({ st with is_training := false, process_id := none, error := none },
      [{ return_code := rc, success := true }])
  else
    ({ st with
        is_training := false,
        process_id := none,
        error := some ("Process ended with code " ++ toString rc) },
      [{ return_code := rc, success := false }])

/-- The `TrainingConfig` Pydantic model of `Server.py` (the fields the start
path consults). -/
structure TrainingConfig where
  config_path : String
  stage : Nat
  resume_mode : String
  resume_checkpoint : Option String
  auto_optimize : Bool
  deriving Repr, DecidableEq

/-- Response of a `Server.py` control handler: the HTTP status code (raised
`HTTPException`s carry 400/404/500; normal returns are 200), an optional
detail message, and whether the background training task was queued. -/
structure ServerResponse where
  status_code : Nat
  detail : Option String
  started : Bool
  deriving Repr, DecidableEq

/-- `POST /api/training/start` of `Server.py` (lines 576-631): raise 400 when
`training_state.is_training`, raise 404 when the config path does not exist,
otherwise queue `run_training_async` as a background task and return 200.
The handler itself mutates no training state (the background task does); the
optional auto-optimize branch only rewrites `config.config_path` after the
guards and is irrelevant to the guard behaviour modelled here (the default
`auto_optimize` is `false`). -/
def serverStartTraining (st : TrainingState) (config : TrainingConfig)
    (configExists : String → Bool) : ServerResponse × TrainingState :=
  if st.is_training then
    ({ status_code := 400, detail := some "Training is already running",
        started := false }, st)
  else if !(configExists config.config_path) then
    ({ status_code := 404,
        detail := some ("Config file not found: " ++ config.config_path),
        started := false }, st)
  else
    ({ status_code := 200, detail := none, started := true }, st)

/-- The argv built by `run_training_async` (`Server.py` lines 269-280,
identical in `training_runner.py` lines 19-27): config path and stage always;
`--resume CKPT` appended exactly when `config.resume_checkpoint` is truthy,
with no reference to `config.resume_mode`. -/
def serverBuildCmd (pythonPath : String) (config : TrainingConfig) : List String :=
  let cmd := [pythonPath, "scripts/train_bailando.py",
    "--config", config.config_path, "--stage", toString config.stage]
  if pyTruthy config.resume_checkpoint then
    cmd ++ ["--resume", config.resume_checkpoint.getD ""]
  else cmd

/-- Outcome of the `Server.py` stop handler: response, resulting
`training_state`, and whether `terminate()` / `kill()` were called. -/
structure ServerStopResult where
  status_code : Nat
  detail : Option String
  state : TrainingState
  terminated : Bool
  killed : Bool
  deriving Repr, DecidableEq

/-- `POST /api/training/stop` of `Server.py` (lines 633-660): raise 400 when
not training; otherwise, when a handle exists, `terminate()` then
`wait(timeout=10)` — if the wait times out (`waitSucceeds = false`) the
raised `TimeoutExpired` is caught by the surrounding handler and converted to
a 500 before `is_training` is reset, with no `kill()` anywhere; on the normal
path set `is_training := false` and return 200. `current_process` is never
cleared on any path. -/
def serverStopTraining (st : TrainingState) (waitSucceeds : Bool) :
    ServerStopResult :=
  if !st.is_training then
    { status_code := 400, detail := some "No training is currently running",
      state := st, terminated := false, killed := false }
  else
    match st.current_process with
    | some _ =>
      if waitSucceeds then
        { status_code := 200, detail := none,
          state := { st with is_training := false },
          terminated := true, killed := false }
      else
        { status_code := 500,
          detail := some "Error stopping training: TimeoutExpired",
          state := st, terminated := true, killed := false }
    | none =>
      { status_code := 200, detail := none,
        state := { st with is_training := false },
        terminated := false, killed := false }

/-- A message on the Event Bridge queue as `get_training_logs` distinguishes
them: `training_log` entries carry the log line, anything else only its tag. -/
inductive QMessage
  | training_log (message : String)
  | other (tag : String)
  deriving Repr, DecidableEq

/-- The drain loop of `get_training_logs`: pops every message (FIFO) into
`temp_queue` and collects the `training_log` payloads into `recent_logs`,
both in pop order. -/
def drainQueue : List QMessage → List QMessage × List String
  | [] => ([], [])
  | m :: rest =>
    let r := drainQueue rest
    match m with
    | .training_log s => (m :: r.1, s :: r.2)
    | .other _ => (m :: r.1, r.2)

/-- The put-back loop of `get_training_logs`: each message of `temp_queue` is
re-enqueued at the tail (the queue is unbounded, so `put` never raises
`Full`). -/
def putBack (temp : List QMessage) : List QMessage :=
  temp.foldl (fun q m => q ++ [m]) []

/-- Python's `l[-n:]` slice for `n ≥ 0` (note `l[-0:]` is the whole list). -/
def pyLastSlice (n : Nat) (l : List String) : List String :=
  if n = 0 then l else l.drop (l.length - n)

/-- What the on-disk fallback of `get_training_logs` finds when the queue
held no `training_log` entries: formatted `training_state_*.json` summaries
(early return, no truncation), the newest text log's lines, or nothing. -/
inductive DiskLogs
  | jsonStates (states : List String)
  | textLog (lines : List String)
  | nothing
  deriving Repr, DecidableEq

/-- Result of `GET /api/training/logs`: the Event Bridge queue afterwards and
the returned log lines. -/
structure LogsResult where
  queue : List QMessage
  logs : List String
  deriving Repr, DecidableEq

/-- `GET /api/training/logs` of `routes/training_routes.py` (lines 436-508):
drain the whole queue collecting `training_log` payloads, re-enqueue every
drained message in pop order, then answer from the collected lines (last
`last_lines` of them, Python slice semantics) or, when none were collected,
from the on-disk fallback. -/
def getTrainingLogs (last_lines : Nat) (q : List QMessage) (disk : DiskLogs) :
    LogsResult :=
  let drained := drainQueue q
  let q' := putBack drained.1
  let recent_logs := drained.2
  if recent_logs.isEmpty then
    match disk with
    | .jsonStates states => { queue := q', logs := states }
    | .textLog lines =>
      let recent :=
        if lines.length > last_lines then pyLastSlice last_lines lines else lines
      if recent.isEmpty then { queue := q', logs := ["No log files found"] }
      else { queue := q', logs := pyLastSlice last_lines recent }
    | .nothing => { queue := q', logs := ["No log files found"] }
  else { queue := q', logs := pyLastSlice last_lines recent_logs }

/-! ### Helper lemmas for the connection registry -/

theorem filter_not_filter_self {α : Type} (f : α → Bool) (l : List α) :
    (l.filter (fun a => !(f a))).filter (fun a => f a) = [] := by
  rw [List.filter_filter]
  have : (fun a => f a && !(f a)) = fun _ => false := by
    funext a; cases h : f a <;> simp [h]
  simp [this]

theorem broadcastPass_eq (f : Nat → Bool) (l : List (String × ConnData)) :
    broadcastPass f l =
      ((l.filter (fun p => !(f p.2.socket))).map Prod.fst,
        (l.filter (fun p => f p.2.socket)).map Prod.fst) := by
  induction l with
  | nil => rfl
  | cons x xs ih =>
    obtain ⟨cid, cd⟩ := x
    simp only [broadcastPass, ih, List.filter_cons]
    by_cases h : f cd.socket <;> simp [h]

theorem removeIds_cons (conns : List (String × ConnData)) (i : String)
    (ids : List String) :
    removeIds conns (i :: ids)
      = removeIds (conns.filter (fun p => !(decide (p.1 = i)))) ids := rfl

theorem removeIds_eq (ids : List String) (conns : List (String × ConnData)) :
    removeIds conns ids =
      conns.filter (fun p => !(ids.any (fun i => decide (p.1 = i)))) := by
  induction ids generalizing conns with
  | nil => simp [removeIds]
  | cons i ids ih =>
    rw [removeIds_cons, ih, List.filter_filter]
    apply List.filter_congr
    intro x _
    simp [List.any_cons, Bool.and_comm]

theorem key_nodup_eq {l : List (String × ConnData)}
    (h : (l.map Prod.fst).Nodup) {p q : String × ConnData}
    (hp : p ∈ l) (hq : q ∈ l) (hk : p.1 = q.1) : p = q := by
  induction l with
  | nil => cases hp
  | cons x xs ih =>
    rw [List.map_cons, List.nodup_cons] at h
    rcases List.mem_cons.mp hp with rfl | hp'
    · rcases List.mem_cons.mp hq with rfl | hq'
      · rfl
      · exact absurd (hk ▸ List.mem_map_of_mem Prod.fst hq') h.1
    · rcases List.mem_cons.mp hq with rfl | hq'
      · exact absurd (hk ▸ List.mem_map_of_mem Prod.fst hp') h.1
      · exact ih h.2 hp' hq'

theorem broadcast_delivered_eq (m : ConnectionManager) (sendFails : Nat → Bool) :
    (m.broadcast sendFails).delivered =
      (m.active_connections.filter (fun p => !(sendFails p.2.socket))).map Prod.fst := by
  unfold ConnectionManager.broadcast
  by_cases hemp : m.active_connections.isEmpty
  · rw [List.isEmpty_iff] at hemp
    simp [hemp]
  · simp [hemp, broadcastPass_eq]

theorem broadcast_failed_eq (m : ConnectionManager) (sendFails : Nat → Bool) :
    (m.broadcast sendFails).failed =
      (m.active_connections.filter (fun p => sendFails p.2.socket)).map Prod.fst := by
  unfold ConnectionManager.broadcast
  by_cases hemp : m.active_connections.isEmpty
  · rw [List.isEmpty_iff] at hemp
    simp [hemp]
  · simp [hemp, broadcastPass_eq]

theorem broadcast_registry_eq (m : ConnectionManager) (sendFails : Nat → Bool)
    (hnd : (m.active_connections.map Prod.fst).Nodup) :
    (m.broadcast sendFails).manager.active_connections =
      m.active_connections.filter (fun p => !(sendFails p.2.socket)) := by
  unfold ConnectionManager.broadcast
  by_cases hemp : m.active_connections.isEmpty
  · rw [List.isEmpty_iff] at hemp
    simp [hemp]
  · simp only [hemp, Bool.false_eq_true, if_false, broadcastPass_eq, removeIds_eq]
    apply List.filter_congr
    intro x hx
    congr 1
    rcases h : sendFails x.2.socket with _ | _
    · rw [List.any_eq_false]
      intro i hi
      rcases List.mem_map.mp hi with ⟨q, hq, rfl⟩
      rcases List.mem_filter.mp hq with ⟨hq₁, hq₂⟩
      simp only [decide_eq_true_eq]
      intro hxq
      have hpq := key_nodup_eq hnd hx hq₁ hxq
      rw [hpq, hq₂] at h
      cases h
    · rw [List.any_eq_true]
      refine ⟨x.1, List.mem_map_of_mem Prod.fst (List.mem_filter.mpr ⟨hx, h⟩), ?_⟩
      simp

/-- **C4** (broadcast partial-failure isolation): for every registry state
(with the key uniqueness a Python dict guarantees) and every set of failing
sockets, `broadcast` delivers to exactly the non-failing connections, records
exactly the failing ids, afterwards the registry contains exactly the
non-failing connections, and every registered connection was attempted
(it ends up delivered-to or failed). -/
theorem broadcast_partial_failure_isolation (m : ConnectionManager)
    (sendFails : Nat → Bool)
    (hnd : (m.active_connections.map Prod.fst).Nodup) :
    (m.broadcast sendFails).delivered =
        (m.active_connections.filter (fun p => !(sendFails p.2.socket))).map Prod.fst
    ∧ (m.broadcast sendFails).failed =
        (m.active_connections.filter (fun p => sendFails p.2.socket)).map Prod.fst
    ∧ (m.broadcast sendFails).manager.active_connections =
        m.active_connections.filter (fun p => !(sendFails p.2.socket))
    ∧ ∀ p ∈ m.active_connections,
        p.1 ∈ (m.broadcast sendFails).delivered
        ∨ p.1 ∈ (m.broadcast sendFails).failed := by
  refine ⟨broadcast_delivered_eq m sendFails, broadcast_failed_eq m sendFails,
    broadcast_registry_eq m sendFails hnd, ?_⟩
  intro p hp
  rcases h : sendFails p.2.socket with _ | _
  · exact Or.inl (by
      rw [broadcast_delivered_eq]
      exact List.mem_map_of_mem Prod.fst (List.mem_filter.mpr ⟨hp, by simp [h]⟩))
  · exact Or.inr (by
      rw [broadcast_failed_eq]
      exact List.mem_map_of_mem Prod.fst (List.mem_filter.mpr ⟨hp, h⟩))

/-- A concrete three-connection registry used by the C4 witness. -/
def sampleRegistry : ConnectionManager :=
  { active_connections :=
      [("conn_1_10", { socket := 1, client_identifier := "dash-A" }),
        ("conn_2_11", { socket := 2, client_identifier := "dash-B" }),
        ("conn_3_12", { socket := 3, client_identifier := "dash-C" })],
    connection_id_counter := 3 }

/-- The send-failure pattern of the C4 witness: only socket 2 fails. -/
def sampleFails : Nat → Bool := fun n => decide (n = 2)

/-- Witness for **C4**: three registered connections of which exactly the one
on socket 2 fails; broadcast delivers to the other two and leaves exactly
them registered. -/
theorem broadcast_partial_failure_isolation_witness :
    ((sampleRegistry.active_connections.map Prod.fst).Nodup)
    ∧ ((sampleRegistry.broadcast sampleFails).delivered =
        (sampleRegistry.active_connections.filter
          (fun p => !(sampleFails p.2.socket))).map Prod.fst
      ∧ (sampleRegistry.broadcast sampleFails).failed =
        (sampleRegistry.active_connections.filter
          (fun p => sampleFails p.2.socket)).map Prod.fst
      ∧ (sampleRegistry.broadcast sampleFails).manager.active_connections =
        sampleRegistry.active_connections.filter (fun p => !(sampleFails p.2.socket))
      ∧ ("conn_2_11" ∈ (sampleRegistry.broadcast sampleFails).delivered
          ∨ "conn_2_11" ∈ (sampleRegistry.broadcast sampleFails).failed)) :=
  ⟨by decide,
    (broadcast_partial_failure_isolation sampleRegistry sampleFails (by decide)).1,
    (broadcast_partial_failure_isolation sampleRegistry sampleFails (by decide)).2.1,
    (broadcast_partial_failure_isolation sampleRegistry sampleFails (by decide)).2.2.1,
    (broadcast_partial_failure_isolation sampleRegistry sampleFails (by decide)).2.2.2
      ("conn_2_11", { socket := 2, client_identifier := "dash-B" }) (by decide)⟩

/-- **C5** (identity eviction): registering a connection with a truthy,
non-anonymous `client_identifier` first closes and removes every existing
connection holding that identifier and then inserts the new one: afterwards
the registry holds exactly one connection for the identifier (the new one),
every previously matching socket received a close, the other entries are
kept in order, and the at-most-one-per-identifier invariant is preserved for
every non-anonymous identifier. -/
theorem connect_identity_eviction (m : ConnectionManager) (socket now : Nat)
    (s : String) (hs : s ≠ "") (hanon : s ≠ "anonymous") :
    (m.connect socket (some s) now).manager.active_connections.filter
        (fun p => decide (p.2.client_identifier = s))
      = [((m.connect socket (some s) now).connection_id,
          { socket := socket, client_identifier := s })]
    ∧ (m.connect socket (some s) now).closedSockets =
        (m.active_connections.filter
          (fun p => decide (p.2.client_identifier = s))).map (fun p => p.2.socket)
    ∧ (m.connect socket (some s) now).manager.active_connections =
        m.active_connections.filter (fun p => !(decide (p.2.client_identifier = s)))
          ++ [((m.connect socket (some s) now).connection_id,
              { socket := socket, client_identifier := s })]
    ∧ ∀ t : String, t ≠ "anonymous" →
        m.active_connections.countP (fun p => decide (p.2.client_identifier = t)) ≤ 1 →
        (m.connect socket (some s) now).manager.active_connections.countP
          (fun p => decide (p.2.client_identifier = t)) ≤ 1 := by
  have htr : pyTruthy (some s) = true := by simp [pyTruthy, hs]
  have hst : storedIdentifier (some s) = s := by
    simp [storedIdentifier, htr, Option.getD]
  refine ⟨?_, ?_, ?_, ?_⟩
  · simp only [ConnectionManager.connect, htr, if_true, Option.getD, hst]
    rw [List.filter_append, filter_not_filter_self]
    simp
  · simp [ConnectionManager.connect, htr]
  · simp [ConnectionManager.connect, htr, hst]
  · intro t ht hcount
    simp only [ConnectionManager.connect, htr, if_true, Option.getD, hst,
      List.countP_append]
    by_cases hts : t = s
    · subst hts
      have h0 : (m.active_connections.filter
          (fun p => !(decide (p.2.client_identifier = t)))).countP
          (fun p => decide (p.2.client_identifier = t)) = 0 := by
        rw [List.countP_eq_length_filter, filter_not_filter_self]
        rfl
      simp [h0]
    · have h1 : (List.countP (fun p => decide (p.2.client_identifier = t))
          [(("conn_" ++ toString (m.connection_id_counter + 1) ++ "_" ++ toString now),
            ({ socket := socket, client_identifier := s } : ConnData))]) = 0 := by
        simp [List.countP_cons, Ne.symm hts]
      have h2 : (m.active_connections.filter
          (fun p => !(decide (p.2.client_identifier = s)))).countP
          (fun p => decide (p.2.client_identifier = t)) ≤
          m.active_connections.countP (fun p => decide (p.2.client_identifier = t)) := by
        exact List.Sublist.countP_le _ (List.filter_sublist _)
      omega

/-- Witness for **C5**: reconnecting as `dash-A` (socket 9) into the
three-connection registry evicts the old `dash-A` connection (socket 1
receives a close), leaves exactly one `dash-A` entry, and preserves the
at-most-one invariant, e.g. for `dash-B`. -/
theorem connect_identity_eviction_witness :
    ("dash-A" : String) ≠ ""
    ∧ ("dash-A" : String) ≠ "anonymous"
    ∧ (sampleRegistry.connect 9 (some "dash-A") 20).manager.active_connections.filter
        (fun p => decide (p.2.client_identifier = "dash-A"))
      = [((sampleRegistry.connect 9 (some "dash-A") 20).connection_id,
          { socket := 9, client_identifier := "dash-A" })]
    ∧ (sampleRegistry.connect 9 (some "dash-A") 20).closedSockets =
        (sampleRegistry.active_connections.filter
          (fun p => decide (p.2.client_identifier = "dash-A"))).map (fun p => p.2.socket)
    ∧ (sampleRegistry.connect 9 (some "dash-A") 20).manager.active_connections =
        sampleRegistry.active_connections.filter
            (fun p => !(decide (p.2.client_identifier = "dash-A")))
          ++ [((sampleRegistry.connect 9 (some "dash-A") 20).connection_id,
              { socket := 9, client_identifier := "dash-A" })]
    ∧ (sampleRegistry.connect 9 (some "dash-A") 20).manager.active_connections.countP
        (fun p => decide (p.2.client_identifier = "dash-B")) ≤ 1 :=
  ⟨by decide, by decide,
    (connect_identity_eviction sampleRegistry 9 20 "dash-A" (by decide) (by decide)).1,
    (connect_identity_eviction sampleRegistry 9 20 "dash-A" (by decide) (by decide)).2.1,
    (connect_identity_eviction sampleRegistry 9 20 "dash-A" (by decide) (by decide)).2.2.1,
    (connect_identity_eviction sampleRegistry 9 20 "dash-A" (by decide) (by decide)).2.2.2
      "dash-B" (by decide) (by decide)⟩

/-- **C6** (loss-explosion alert): on a watcher tick that consumes a strictly
newer state file, exactly one `training_update` carrying the decoded
epoch/loss/stage and the elapsed time from the run's start timestamp is
pushed; when the decoded loss exceeds 500 exactly one additional
`training_alert` of level `critical` follows it, and when the loss is at
most 500 no alert is pushed. -/
theorem watcher_update_and_critical_alert (st : TrainingState)
    (last_modified mtime now : ℚ) (log_data : StateLog)
    (hnew : mtime > last_modified) :
    (log_data.loss > 500 →
      (monitorTick st last_modified (some (mtime, log_data)) now).events =
        [WatchEvent.training_update log_data.epoch log_data.loss log_data.stage
            (match st.start_time with | some t0 => now - t0 | none => 0),
          WatchEvent.training_alert "critical" log_data.epoch])
    ∧ (log_data.loss ≤ 500 →
      (monitorTick st last_modified (some (mtime, log_data)) now).events =
        [WatchEvent.training_update log_data.epoch log_data.loss log_data.stage
            (match st.start_time with | some t0 => now - t0 | none => 0)])
    ∧ (monitorTick st last_modified (some (mtime, log_data)) now).state =
        { st with
          current_epoch := log_data.epoch,
          current_loss := log_data.loss,
          current_stage := log_data.stage } := by
  refine ⟨?_, ?_, ?_⟩
  · intro hloss
    simp [monitorTick, hnew, hloss]
  · intro hloss
    simp [monitorTick, hnew, not_lt.mpr hloss]
  · simp [monitorTick, hnew]

/-- Witness for **C6** (Scenario C): watermark 0, state file with mtime 1 and
decoded snapshot epoch 5, loss 612.3, stage 1, run started at 100 and now
400: one `training_update` with loss 612.3 and elapsed 300 followed by one
`critical` alert. -/
theorem watcher_update_and_critical_alert_witness :
    ((1 : ℚ) > 0)
    ∧ ((612.3 : ℚ) > 500)
    ∧ (monitorTick
        { is_training := true, current_process := some 41, current_stage := 1,
          current_epoch := 4, current_loss := 100, start_time := some 100 }
        0 (some (1, { epoch := 5, loss := 612.3, stage := 1 })) 400).events =
      [WatchEvent.training_update 5 612.3 1 300,
        WatchEvent.training_alert "critical" 5] :=
  ⟨by norm_num, by norm_num, by
    have h := (watcher_update_and_critical_alert
      { is_training := true, current_process := some 41, current_stage := 1,
        current_epoch := 4, current_loss := 100, start_time := some 100 }
      0 1 400 { epoch := 5, loss := 612.3, stage := 1 } (by norm_num)).1
      (by norm_num)
    have e : (612.3 : ℚ) = 6123 / 10 := by norm_num
    rw [e]
    norm_num at h
    exact h⟩

/-- **C7** (watcher idempotence): a watcher tick whose newest file is not
strictly newer than the watermark (in particular, equal to it) pushes no
events and leaves the shared state and the watermark unchanged; conversely a
tick only pushes events when the newest mtime strictly exceeds the
watermark. -/
theorem watcher_idempotence (st : TrainingState)
    (last_modified mtime now : ℚ) (log_data : StateLog) :
    (mtime ≤ last_modified →
      monitorTick st last_modified (some (mtime, log_data)) now =
        ⟨st, last_modified, []⟩)
    ∧ ((monitorTick st last_modified (some (mtime, log_data)) now).events ≠ [] →
        mtime > last_modified) := by
  constructor
  · intro hold
    simp [monitorTick, not_lt.mpr hold]
  · intro hne
    by_cases h : mtime > last_modified
    · exact h
    · exact absurd (by simp [monitorTick, h]) hne

/-- Witness for **C7**: with the watermark already equal to the newest
mtime (both 7), a tick is a no-op; and a tick over mtime 8 that did push
events indeed had 8 > 7. -/
theorem watcher_idempotence_witness :
    ((7 : ℚ) ≤ 7)
    ∧ (monitorTick
        { is_training := true, current_process := some 41, current_stage := 1,
          current_epoch := 5, current_loss := 20, start_time := some 100 }
        7 (some (7, { epoch := 5, loss := 20, stage := 1 })) 400) =
      ⟨{ is_training := true, current_process := some 41, current_stage := 1,
          current_epoch := 5, current_loss := 20, start_time := some 100 },
        7, []⟩
    ∧ ((monitorTick
        { is_training := true, current_process := some 41, current_stage := 1,
          current_epoch := 5, current_loss := 20, start_time := some 100 }
        7 (some (8, { epoch := 6, loss := 21, stage := 1 })) 400).events ≠ [])
    ∧ ((8 : ℚ) > 7) :=
  ⟨by norm_num,
    (watcher_idempotence
      { is_training := true, current_process := some 41, current_stage := 1,
        current_epoch := 5, current_loss := 20, start_time := some 100 }
      7 7 400 { epoch := 5, loss := 20, stage := 1 }).1 (by norm_num),
    by decide,
    (watcher_idempotence
      { is_training := true, current_process := some 41, current_stage := 1,
        current_epoch := 5, current_loss := 20, start_time := some 100 }
      7 8 400 { epoch := 6, loss := 21, stage := 1 }).2 (by decide)⟩

/-- Unfolding lemma: one `noData` tick adds 0.5 to the accumulator, then
either fires the hang branch (terminate + one `error` alert + break) or
recurses. -/
theorem drainLoop_cons_noData (t : ℚ) (rest : List DrainTick) :
    drainLoop t (DrainTick.noData :: rest) =
      (if t + 1/2 > 300 then
        { terminates := 1, events := [DrainEvent.trainingAlert "error"],
          remaining := rest, finalTimeout := t + 1/2 }
      else drainLoop (t + 1/2) rest) := rfl

/-- Core induction for C3: starting from an accumulator of `j` half-seconds
(`j ≤ 600`, i.e. at most 300 s) and at least `601 - j` further consecutive
silent ticks, the hang branch fires exactly once, emits exactly one `error`
alert, and the loop exits leaving the unconsumed suffix. -/
theorem drainLoop_noData_hang (rest : List DrainTick) :
    ∀ (n j : ℕ), j ≤ 600 → 601 ≤ n + j →
      drainLoop ((j : ℚ) / 2) (List.replicate n DrainTick.noData ++ rest) =
        { terminates := 1, events := [DrainEvent.trainingAlert "error"],
          remaining := List.replicate (n + j - 601) DrainTick.noData ++ rest,
          finalTimeout := 601 / 2 } := by
  intro n
  induction n with
  | zero => intro j hj hn; omega
  | succ n ih =>
    intro j hj hn
    rw [List.replicate_succ, List.cons_append, drainLoop_cons_noData]
    by_cases hj600 : j = 600
    · subst hj600
      rw [if_pos (by norm_num)]
      have hrem : n + 1 + 600 - 601 = n := by omega
      rw [hrem]
      have hft : ((600 : ℕ) : ℚ) / 2 + 1 / 2 = 601 / 2 := by norm_num
      rw [hft]
    · have hjlt : j < 600 := lt_of_le_of_ne hj hj600
      have hcond : ¬((j : ℚ) / 2 + 1 / 2 > 300) := by
        have : (j : ℚ) ≤ 599 := by exact_mod_cast Nat.lt_succ_iff.mp (by omega)
        push_neg
        linarith
      rw [if_neg hcond]
      have hacc : (j : ℚ) / 2 + 1 / 2 = ((j + 1 : ℕ) : ℚ) / 2 := by
        push_cast
        ring
      rw [hacc, ih (j + 1) (by omega) (by omega)]
      have hrem : n + (j + 1) - 601 = n + 1 + j - 601 := by omega
      rw [hrem]

/-- Unfolding lemma: a non-empty output line resets the accumulator to 0 and
broadcasts a console message. -/
theorem drainLoop_cons_output (t : ℚ) (rest : List DrainTick) :
    drainLoop t (DrainTick.output :: rest) =
      (if (0 : ℚ) > 300 then
        { terminates := 1,
          events := [DrainEvent.consoleOutput, DrainEvent.trainingAlert "error"],
          remaining := rest, finalTimeout := 0 }
      else
        { terminates := (drainLoop 0 rest).terminates,
          events := DrainEvent.consoleOutput :: (drainLoop 0 rest).events,
          remaining := (drainLoop 0 rest).remaining,
          finalTimeout := (drainLoop 0 rest).finalTimeout }) := rfl

/-- Unfolding lemma: an empty readline adds 0.5 like a silent tick. -/
theorem drainLoop_cons_empty (t : ℚ) (rest : List DrainTick) :
    drainLoop t (DrainTick.empty :: rest) =
      (if t + 1/2 > 300 then
        { terminates := 1, events := [DrainEvent.trainingAlert "error"],
          remaining := rest, finalTimeout := t + 1/2 }
      else drainLoop (t + 1/2) rest) := rfl

/-- Unfolding lemma: a read exception adds a full second. -/
theorem drainLoop_cons_readError (t : ℚ) (rest : List DrainTick) :
    drainLoop t (DrainTick.readError :: rest) =
      (if t + 1 > 300 then
        { terminates := 1, events := [DrainEvent.trainingAlert "error"],
          remaining := rest, finalTimeout := t + 1 }
      else drainLoop (t + 1) rest) := rfl

/-- In every execution of the drain loop, the number of hang terminations is
at most one and equals the number of `error`-level alerts broadcast. -/
theorem drainLoop_alert_coupling : ∀ (trace : List DrainTick) (t : ℚ),
    (drainLoop t trace).terminates ≤ 1
    ∧ (drainLoop t trace).events.countP
        (fun e => decide (e = DrainEvent.trainingAlert "error")) =
      (drainLoop t trace).terminates := by
  intro trace
  induction trace with
  | nil => intro t; simp [drainLoop]
  | cons x rest ih =>
    intro t
    cases x
    · rw [drainLoop_cons_output, if_neg (by norm_num)]
      have h := ih 0
      simp only [List.countP_cons]
      simpa using h
    · rw [drainLoop_cons_empty]
      by_cases hc : t + 1/2 > 300
      · rw [if_pos hc]; simp
      · rw [if_neg hc]; exact ih (t + 1/2)
    · rw [drainLoop_cons_noData]
      by_cases hc : t + 1/2 > 300
      · rw [if_pos hc]; simp
      · rw [if_neg hc]; exact ih (t + 1/2)
    · rw [drainLoop_cons_readError]
      by_cases hc : t + 1 > 300
      · rw [if_pos hc]; simp
      · rw [if_neg hc]; exact ih (t + 1)

/-- **C3** (hang detection): from any reachable accumulator value (`j` half
seconds since the last output, `j ≤ 600`) and at least `601 - j` further
consecutive silent ticks while the process has not exited, the drain loop
terminates the child exactly once, broadcasts exactly one `training_alert`
of level `error`, and exits, leaving the rest of the trace unconsumed; and
in every execution whatsoever the hang branch fires at most once, with the
number of `error` alerts equal to the number of hang terminations. -/
theorem hang_detection_single_terminate (rest : List DrainTick) (n j : ℕ)
    (hj : j ≤ 600) (hn : 601 ≤ n + j) :
    drainLoop ((j : ℚ) / 2) (List.replicate n DrainTick.noData ++ rest) =
      { terminates := 1, events := [DrainEvent.trainingAlert "error"],
        remaining := List.replicate (n + j - 601) DrainTick.noData ++ rest,
        finalTimeout := 601 / 2 }
    ∧ ∀ (t : ℚ) (trace : List DrainTick),
        (drainLoop t trace).terminates ≤ 1
        ∧ (drainLoop t trace).events.countP
            (fun e => decide (e = DrainEvent.trainingAlert "error")) =
          (drainLoop t trace).terminates :=
  ⟨drainLoop_noData_hang rest n j hj hn, fun t trace => drainLoop_alert_coupling trace t⟩

/-- Witness for **C3**: 601 consecutive silent half-second ticks from a fresh
accumulator trip the 300 s threshold: one terminate, one `error` alert, loop
exited; and on a short sample trace the coupling holds. -/
theorem hang_detection_single_terminate_witness :
    (0 : ℕ) ≤ 600
    ∧ 601 ≤ 601 + 0
    ∧ drainLoop (((0 : ℕ) : ℚ) / 2)
        (List.replicate 601 DrainTick.noData ++ [DrainTick.output]) =
      { terminates := 1, events := [DrainEvent.trainingAlert "error"],
        remaining := List.replicate (601 + 0 - 601) DrainTick.noData
          ++ [DrainTick.output],
        finalTimeout := 601 / 2 }
    ∧ ((drainLoop 0 [DrainTick.output, DrainTick.noData]).terminates ≤ 1
        ∧ (drainLoop 0 [DrainTick.output, DrainTick.noData]).events.countP
            (fun e => decide (e = DrainEvent.trainingAlert "error")) =
          (drainLoop 0 [DrainTick.output, DrainTick.noData]).terminates) :=
  ⟨by decide, by decide,
    (hang_detection_single_terminate [DrainTick.output] 601 0 (by decide) (by decide)).1,
    (hang_detection_single_terminate [DrainTick.output] 601 0 (by decide) (by decide)).2
      0 [DrainTick.output, DrainTick.noData]⟩

/-- A status dict mid-run, as left by a successful routes start. -/
def busyStatus : TrainingStatusRec :=
  { is_training := true, stage := some 1,
    config_path := some "config/bailando_config_stable.yaml",
    start_time := some "2025-01-01T10:00:00", current_epoch := 3,
    current_loss := 12, process_id := some 77, error := none,
    resume_mode := some "fresh", run_name := none }

/-- A fresh-start request against the default stable config. -/
def sampleRequest : TrainingRequest :=
  { config_path := "config/bailando_config_stable.yaml", stage := 1,
    resume_mode := "fresh", resume_checkpoint := none, run_name := none,
    preserve_logs := false }

/-- Counterexample to **C1** as stated: when `is_training` is already true the
routes `start_training` handler does reject without spawning, but the
rejection is a plain dict return served as HTTP 200 with `success=false` —
not the HTTP 400 the claim requires of every start operation. -/
theorem start_already_training_not_http400 :
    busyStatus.is_training = true
    ∧ (routesStartTraining busyStatus sampleRequest (fun _ => true) (fun _ => true)
        78 "2025-01-01T10:05:00").success = false
    ∧ (routesStartTraining busyStatus sampleRequest (fun _ => true) (fun _ => true)
        78 "2025-01-01T10:05:00").spawned = none
    ∧ (routesStartTraining busyStatus sampleRequest (fun _ => true) (fun _ => true)
        78 "2025-01-01T10:05:00").status_code = 200
    ∧ ¬((routesStartTraining busyStatus sampleRequest (fun _ => true) (fun _ => true)
        78 "2025-01-01T10:05:00").status_code = 400) := by
  refine ⟨rfl, rfl, rfl, rfl, ?_⟩
  decide


/-- While `is_training` is true, the routes start handler returns the
AlreadyRunning rejection dict and changes nothing. -/
theorem routesStart_reject_of_busy (st : TrainingStatusRec)
    (req : TrainingRequest) (cE kE : String → Bool) (pid : Nat)
    (nowIso : String) (hbusy : st.is_training = true) :
    routesStartTraining st req cE kE pid nowIso =
      { status_code := 200, success := false,
        error := some "Training is already in progress", spawned := none,
        status := st } := by
  simp [routesStartTraining, hbusy]

/-- **C1** (amended, mutual exclusion): while `is_training` is true, both
start handlers perform no spawn and no status mutation and return an
AlreadyRunning rejection — the `Server.py` handler as an HTTP 400, the routes
handler as a `success=false` dict body served with HTTP 200; and calling
start twice without an intervening stop yields exactly one success and one
rejection. -/
theorem start_mutual_exclusion (st st0 : TrainingStatusRec)
    (req : TrainingRequest) (cE kE : String → Bool) (pid pid2 : Nat)
    (nowIso nowIso2 : String) (sst : TrainingState) (cfg : TrainingConfig)
    (hbusy : st.is_training = true) (hsbusy : sst.is_training = true)
    (h0 : st0.is_training = false) (hcfg : cE req.config_path = true)
    (hmode : req.resume_mode = "fresh") :
    (routesStartTraining st req cE kE pid nowIso).success = false
    ∧ (routesStartTraining st req cE kE pid nowIso).spawned = none
    ∧ (routesStartTraining st req cE kE pid nowIso).status = st
    ∧ (routesStartTraining st req cE kE pid nowIso).error =
        some "Training is already in progress"
    ∧ (routesStartTraining st req cE kE pid nowIso).status_code = 200
    ∧ (serverStartTraining sst cfg cE).1.status_code = 400
    ∧ (serverStartTraining sst cfg cE).1.started = false
    ∧ (serverStartTraining sst cfg cE).2 = sst
    ∧ (routesStartTraining st0 req cE kE pid nowIso).success = true
    ∧ (routesStartTraining st0 req cE kE pid nowIso).status.is_training = true
    ∧ (routesStartTraining (routesStartTraining st0 req cE kE pid nowIso).status
        req cE kE pid2 nowIso2).success = false
    ∧ (routesStartTraining (routesStartTraining st0 req cE kE pid nowIso).status
        req cE kE pid2 nowIso2).spawned = none := by
  have hfirst : (routesStartTraining st0 req cE kE pid nowIso).success = true
      ∧ (routesStartTraining st0 req cE kE pid nowIso).status.is_training = true := by
    rw [routesStartTraining]
    simp only [h0, Bool.false_eq_true, if_false, hcfg, Bool.not_true, if_false]
    rw [routesResumeArgs, hmode]
    simp
  refine ⟨?_, ?_, ?_, ?_, ?_, ?_, ?_, ?_, hfirst.1, hfirst.2, ?_, ?_⟩
  · rw [routesStart_reject_of_busy st req cE kE pid nowIso hbusy]
  · rw [routesStart_reject_of_busy st req cE kE pid nowIso hbusy]
  · rw [routesStart_reject_of_busy st req cE kE pid nowIso hbusy]
  · rw [routesStart_reject_of_busy st req cE kE pid nowIso hbusy]
  · rw [routesStart_reject_of_busy st req cE kE pid nowIso hbusy]
  · simp [serverStartTraining, hsbusy]
  · simp [serverStartTraining, hsbusy]
  · simp [serverStartTraining, hsbusy]
  · rw [routesStart_reject_of_busy _ req cE kE pid2 nowIso2 hfirst.2]
  · rw [routesStart_reject_of_busy _ req cE kE pid2 nowIso2 hfirst.2]

/-- Witness for **C1** (Scenario A): start from a fresh status succeeds; a
second start while running is rejected without a spawn; the `Server.py`
handler rejects the same situation with HTTP 400. -/
theorem start_mutual_exclusion_witness :
    busyStatus.is_training = true
    ∧ TrainingState.is_training
        { is_training := true, current_process := some 77, current_stage := 1,
          current_epoch := 3, current_loss := 12, start_time := some 100 } = true
    ∧ TrainingStatusRec.is_training
        { is_training := false, stage := none, config_path := none,
          start_time := none, current_epoch := 0, current_loss := 0,
          process_id := none, error := none, resume_mode := none,
          run_name := none } = false
    ∧ (fun _ => true) sampleRequest.config_path = true
    ∧ sampleRequest.resume_mode = "fresh"
    ∧ (routesStartTraining busyStatus sampleRequest (fun _ => true) (fun _ => true)
        78 "t1").success = false
    ∧ (serverStartTraining
        { is_training := true, current_process := some 77, current_stage := 1,
          current_epoch := 3, current_loss := 12, start_time := some 100 }
        { config_path := "config/bailando_config_stable.yaml", stage := 1,
          resume_mode := "fresh", resume_checkpoint := none,
          auto_optimize := false } (fun _ => true)).1.status_code = 400
    ∧ (routesStartTraining
        { is_training := false, stage := none, config_path := none,
          start_time := none, current_epoch := 0, current_loss := 0,
          process_id := none, error := none, resume_mode := none,
          run_name := none } sampleRequest (fun _ => true) (fun _ => true)
        78 "t1").success = true
    ∧ (routesStartTraining
        (routesStartTraining
          { is_training := false, stage := none, config_path := none,
            start_time := none, current_epoch := 0, current_loss := 0,
            process_id := none, error := none, resume_mode := none,
            run_name := none } sampleRequest (fun _ => true) (fun _ => true)
          78 "t1").status sampleRequest (fun _ => true) (fun _ => true)
        79 "t2").success = false := by
  have h := start_mutual_exclusion busyStatus
    { is_training := false, stage := none, config_path := none,
      start_time := none, current_epoch := 0, current_loss := 0,
      process_id := none, error := none, resume_mode := none,
      run_name := none }
    sampleRequest (fun _ => true) (fun _ => true) 78 79 "t1" "t2"
    { is_training := true, current_process := some 77, current_stage := 1,
      current_epoch := 3, current_loss := 12, start_time := some 100 }
    { config_path := "config/bailando_config_stable.yaml", stage := 1,
      resume_mode := "fresh", resume_checkpoint := none,
      auto_optimize := false }
    rfl rfl rfl rfl rfl
  exact ⟨rfl, rfl, rfl, rfl, rfl, h.1, h.2.2.2.2.2.1, h.2.2.2.2.2.2.2.2.1,
    h.2.2.2.2.2.2.2.2.2.2.1⟩

/-- A `TrainingState` mid-run with a live child process, as left by
`run_training_async`. -/
def busyState : TrainingState :=
  { is_training := true, current_process := some 42, current_stage := 1,
    current_epoch := 3, current_loss := 12, start_time := some 100 }

/-- Counterexample to **C2** as stated: the `Server.py` stop handler returns
successfully (HTTP 200) from a state with an active process, sets
`is_training` to false, but never clears `current_process` — the process
handle survives the successful stop, and no force-kill path exists (a wait
timeout becomes a 500 with `is_training` still true). -/
theorem server_stop_keeps_handle :
    busyState.is_training = true
    ∧ busyState.current_process = some 42
    ∧ (serverStopTraining busyState true).status_code = 200
    ∧ (serverStopTraining busyState true).state.is_training = false
    ∧ (serverStopTraining busyState true).state.current_process = some 42
    ∧ ¬((serverStopTraining busyState true).state.current_process = none)
    ∧ (serverStopTraining busyState false).status_code = 500
    ∧ (serverStopTraining busyState false).state.is_training = true
    ∧ (serverStopTraining busyState false).killed = false := by
  refine ⟨rfl, rfl, rfl, rfl, rfl, ?_, rfl, rfl, rfl⟩
  decide

/-- **C2** (amended, status consistency): for every prior state with an
active process, the routes stop handler signals graceful termination, waits
the bounded grace period, force-kills on expiry, and on its successful
return leaves `is_training = false` with the process handle cleared — and
this postcondition holds on every successful exit of that handler from any
reachable state. The `Server.py` stop handler, by contrast, ends its
successful path with `is_training = false` but with `current_process` still
set, and never force-kills (a wait timeout surfaces as a 500 with the state
unchanged). -/
theorem stop_success_postcondition (proc : Option Nat) (p : Nat)
    (st : TrainingStatusRec) (g : Bool) (sst : TrainingState) (q : Nat)
    (hproc : proc = some p) (hbusy : st.is_training = true)
    (hsb : sst.is_training = true) (hsp : sst.current_process = some q) :
    (routesStopTraining proc st g).success = true
    ∧ (routesStopTraining proc st g).status.is_training = false
    ∧ (routesStopTraining proc st g).status.process_id = none
    ∧ (routesStopTraining proc st g).processHandle = none
    ∧ (routesStopTraining proc st g).terminated = true
    ∧ (routesStopTraining proc st g).killed = !g
    ∧ (∀ (proc' : Option Nat) (st' : TrainingStatusRec) (g' : Bool),
        (routesStopTraining proc' st' g').success = true →
          (routesStopTraining proc' st' g').status.is_training = false
          ∧ (routesStopTraining proc' st' g').processHandle = none)
    ∧ (serverStopTraining sst true).status_code = 200
    ∧ (serverStopTraining sst true).state.is_training = false
    ∧ (serverStopTraining sst true).state.current_process = some q
    ∧ (serverStopTraining sst false).status_code = 500
    ∧ (serverStopTraining sst false).state = sst
    ∧ (serverStopTraining sst false).killed = false := by
  subst hproc
  have hroutes : routesStopTraining (some p) st g =
      { status_code := 200, success := true, error := none,
        status := { st with is_training := false, process_id := none, error := none },
        processHandle := none, terminated := true, killed := !g } := by
    simp [routesStopTraining, hbusy]
  refine ⟨?_, ?_, ?_, ?_, ?_, ?_, ?_, ?_, ?_, ?_, ?_, ?_, ?_⟩
  · rw [hroutes]
  · rw [hroutes]
  · rw [hroutes]
  · rw [hroutes]
  · rw [hroutes]
  · rw [hroutes]
  · intro proc' st' g' hsucc
    match proc' with
    | none =>
      simp [routesStopTraining] at hsucc
    | some p' =>
      by_cases hb' : st'.is_training = true
      · constructor
        · simp [routesStopTraining, hb']
        · simp [routesStopTraining, hb']
      · rw [Bool.not_eq_true] at hb'
        simp [routesStopTraining, hb'] at hsucc
  · simp [serverStopTraining, hsb, hsp]
  · simp [serverStopTraining, hsb, hsp]
  · simp [serverStopTraining, hsb, hsp]
  · simp [serverStopTraining, hsb, hsp]
  · simp [serverStopTraining, hsb, hsp]
  · simp [serverStopTraining, hsb, hsp]

/-- Witness for **C2**: stopping a run tracked as pid 77 with a timed-out
grace period: success, `is_training=false`, handle cleared, child killed;
while the `Server.py` handler applied to `busyState` keeps `some 42` as its
handle after a successful stop. -/
theorem stop_success_postcondition_witness :
    (some 77 : Option Nat) = some 77
    ∧ busyStatus.is_training = true
    ∧ busyState.is_training = true
    ∧ busyState.current_process = some 42
    ∧ (routesStopTraining (some 77) busyStatus false).success = true
    ∧ (routesStopTraining (some 77) busyStatus false).status.is_training = false
    ∧ (routesStopTraining (some 77) busyStatus false).processHandle = none
    ∧ (routesStopTraining (some 77) busyStatus false).killed = !false
    ∧ (serverStopTraining busyState true).state.current_process = some 42 := by
  have h := stop_success_postcondition (some 77) 77 busyStatus false busyState 42
    rfl rfl rfl rfl
  exact ⟨rfl, rfl, rfl, rfl, h.1, h.2.1, h.2.2.2.1, h.2.2.2.2.2.1,
    h.2.2.2.2.2.2.2.2.2.1⟩

/-- **C8** (exit reconciliation): when the tracked child has exited with a
non-zero code since the last check, the status query reconciles before
returning — `is_training` becomes false, the process id and handle are
cleared, and `error` is set to a non-null message derived from the exit
code — and the monitor thread's end-of-process block reconciles the same way
and broadcasts exactly one completion event with `success = false` carrying
that return code. -/
theorem status_reconciles_nonzero_exit (st : TrainingStatusRec)
    (p : PopenSim) (rc : Int) (hbusy : st.is_training = true)
    (hpoll : p.poll = some rc) (hrc : rc ≠ 0) :
    (getTrainingStatus (some p) st).proc = none
    ∧ (getTrainingStatus (some p) st).status.is_training = false
    ∧ (getTrainingStatus (some p) st).status.process_id = none
    ∧ (getTrainingStatus (some p) st).status.error =
        some ("Process ended with exit code " ++ toString rc)
    ∧ ((getTrainingStatus (some p) st).status.error).isSome = true
    ∧ (monitorCompletion rc st).2 = [{ return_code := rc, success := false }]
    ∧ (monitorCompletion rc st).1.is_training = false
    ∧ (monitorCompletion rc st).1.process_id = none
    ∧ (monitorCompletion rc st).1.error =
        some ("Process ended with code " ++ toString rc) := by
  have hq : getTrainingStatus (some p) st =
      { proc := none,
        status := { st with
          is_training := false,
          process_id := none,
          error := some ("Process ended with exit code " ++ toString rc) } } := by
    simp [getTrainingStatus, hbusy, hpoll, hrc]
  have hm : monitorCompletion rc st =
      ({ st with
          is_training := false,
          process_id := none,
          error := some ("Process ended with code " ++ toString rc) },
        [{ return_code := rc, success := false }]) := by
    simp [monitorCompletion, hrc]
  rw [hq, hm]
  exact ⟨rfl, rfl, rfl, rfl, rfl, rfl, rfl, rfl, rfl⟩

/-- Witness for **C8** (Scenario E): the child exits with code 137; the
status query flips `is_training` off, clears the pid, stores the derived
error message, and the monitor broadcasts one
`training_complete{success:false, return_code:137}`. -/
theorem status_reconciles_nonzero_exit_witness :
    busyStatus.is_training = true
    ∧ PopenSim.poll { poll := some 137 } = some (137 : Int)
    ∧ (137 : Int) ≠ 0
    ∧ (getTrainingStatus (some { poll := some 137 }) busyStatus).status.is_training
        = false
    ∧ (getTrainingStatus (some { poll := some 137 }) busyStatus).status.error =
        some ("Process ended with exit code " ++ toString (137 : Int))
    ∧ (monitorCompletion 137 busyStatus).2 =
        [{ return_code := 137, success := false }] := by
  have h := status_reconciles_nonzero_exit busyStatus { poll := some 137 } 137
    rfl rfl (by decide)
  exact ⟨rfl, rfl, by decide, h.2.1, h.2.2.2.1, h.2.2.2.2.2.1⟩

/-- A `Server.py` start config asking for a fresh run while also carrying a
checkpoint path. -/
def freshWithCkpt : TrainingConfig :=
  { config_path := "config/bailando_config.yaml", stage := 1,
    resume_mode := "fresh",
    resume_checkpoint := some "outputs/checkpoints/model_stage_1_latest.pth",
    auto_optimize := false }

/-- Counterexample to **C9** as stated: the `Server.py` argv builder keys the
resume flag on `resume_checkpoint` alone, so a request with
`resume_mode = "fresh"` and a checkpoint set still gets `--resume PATH` —
the resume directive is not a function of `resume_mode` in that handler. -/
theorem server_cmd_resume_ignores_mode :
    freshWithCkpt.resume_mode = "fresh"
    ∧ "--resume" ∈ serverBuildCmd "python3" freshWithCkpt
    ∧ "outputs/checkpoints/model_stage_1_latest.pth" ∈
        serverBuildCmd "python3" freshWithCkpt := by
  refine ⟨rfl, ?_, ?_⟩ <;> decide

/-- **C9** (amended, argv encoding): the routes handler builds the argv with
the config path after `--config` and the stage after `--stage`, and encodes
the resume directive as a function of `resume_mode` exactly as claimed
(`fresh` contributes nothing, `latest` the sentinel, `specific` the validated
checkpoint path); every spawned command of that handler contains the config
path and the stage. The `Server.py` builder instead appends
`--resume CKPT` whenever `resume_checkpoint` is truthy and never consults
`resume_mode`. -/
theorem start_cmd_resume_encoding (req : TrainingRequest)
    (kE : String → Bool) (cfg : TrainingConfig) (py c cc : String) :
    (req.resume_mode = "fresh" → routesResumeArgs req kE = .ok [])
    ∧ (req.resume_mode = "latest" →
        routesResumeArgs req kE = .ok ["--resume", "latest"])
    ∧ (req.resume_mode = "specific" → req.resume_checkpoint = some c →
        c ≠ "" → kE c = true → routesResumeArgs req kE = .ok ["--resume", c])
    ∧ (∀ args : List String, routesBuildCmd req args =
        ["python", "scripts/train_bailando.py", "--config", req.config_path,
          "--stage", toString req.stage]
        ++ args
        ++ (if pyTruthy req.run_name then ["--run-name", req.run_name.getD ""]
            else [])
        ++ (if req.preserve_logs then ["--preserve-logs"] else []))
    ∧ (∀ (st0 : TrainingStatusRec) (cE : String → Bool) (pid : Nat)
        (tIso : String) (cmd : List String),
        (routesStartTraining st0 req cE kE pid tIso).spawned = some cmd →
          "--config" ∈ cmd ∧ req.config_path ∈ cmd
          ∧ "--stage" ∈ cmd ∧ toString req.stage ∈ cmd)
    ∧ (cfg.resume_checkpoint = some cc → cc ≠ "" →
        serverBuildCmd py cfg =
          [py, "scripts/train_bailando.py", "--config", cfg.config_path,
            "--stage", toString cfg.stage] ++ ["--resume", cc])
    ∧ (cfg.resume_checkpoint = none →
        serverBuildCmd py cfg =
          [py, "scripts/train_bailando.py", "--config", cfg.config_path,
            "--stage", toString cfg.stage]) := by
  refine ⟨?_, ?_, ?_, ?_, ?_, ?_, ?_⟩
  · intro h
    simp [routesResumeArgs, h]
  · intro h
    simp [routesResumeArgs, h]
  · intro h hck hc hkE
    simp [routesResumeArgs, h, hck, pyTruthy, hc, hkE]
  · intro args
    simp [routesBuildCmd]
  · intro st0 cE pid tIso cmd hsp
    rw [routesStartTraining] at hsp
    by_cases hb : st0.is_training = true
    · simp [hb] at hsp
    · rw [Bool.not_eq_true] at hb
      by_cases hcfg : cE req.config_path = true
      · simp only [hb, Bool.false_eq_true, if_false, hcfg, Bool.not_true,
          if_false] at hsp
        match hra : routesResumeArgs req kE with
        | .error e =>
          rw [hra] at hsp
          simp at hsp
        | .ok args =>
          rw [hra] at hsp
          simp only [Option.some.injEq] at hsp
          subst hsp
          refine ⟨?_, ?_, ?_, ?_⟩ <;> simp [routesBuildCmd]
      · rw [Bool.not_eq_true] at hcfg
        simp [hb, hcfg] at hsp
  · intro hck hcc
    simp [serverBuildCmd, hck, pyTruthy, hcc]
  · intro hck
    simp [serverBuildCmd, hck, pyTruthy]

/-- Witness for **C9**: a `latest` request gets the sentinel, a `specific`
request gets its validated checkpoint path, a `fresh` request contributes no
resume flag, a spawned fresh-start command contains config and stage, and
the `Server.py` builder appends the checkpoint it was given. -/
theorem start_cmd_resume_encoding_witness :
    sampleRequest.resume_mode = "fresh"
    ∧ TrainingRequest.resume_mode
        { config_path := "config/bailando_config_stable.yaml", stage := 2,
          resume_mode := "latest", resume_checkpoint := none, run_name := none,
          preserve_logs := false } = "latest"
    ∧ routesResumeArgs sampleRequest (fun _ => true) = .ok []
    ∧ routesResumeArgs
        { config_path := "config/bailando_config_stable.yaml", stage := 2,
          resume_mode := "latest", resume_checkpoint := none, run_name := none,
          preserve_logs := false } (fun _ => true) = .ok ["--resume", "latest"]
    ∧ routesResumeArgs
        { config_path := "config/bailando_config_stable.yaml", stage := 2,
          resume_mode := "specific",
          resume_checkpoint := some "outputs/checkpoints/model_stage_2_epoch_40.pth",
          run_name := none, preserve_logs := false } (fun _ => true) =
        .ok ["--resume", "outputs/checkpoints/model_stage_2_epoch_40.pth"]
    ∧ ("config/bailando_config_stable.yaml" ∈
          routesBuildCmd sampleRequest [] ∧ toString sampleRequest.stage ∈
          routesBuildCmd sampleRequest [])
    ∧ serverBuildCmd "python3" freshWithCkpt =
        ["python3", "scripts/train_bailando.py", "--config",
          "config/bailando_config.yaml", "--stage", "1"]
        ++ ["--resume", "outputs/checkpoints/model_stage_1_latest.pth"] := by
  refine ⟨rfl, rfl, ?_, ?_, ?_, ?_, ?_⟩
  · exact (start_cmd_resume_encoding sampleRequest (fun _ => true)
      freshWithCkpt "python3" "" "").1 rfl
  · exact (start_cmd_resume_encoding
      { config_path := "config/bailando_config_stable.yaml", stage := 2,
        resume_mode := "latest", resume_checkpoint := none, run_name := none,
        preserve_logs := false } (fun _ => true)
      freshWithCkpt "python3" "" "").2.1 rfl
  · exact (start_cmd_resume_encoding
      { config_path := "config/bailando_config_stable.yaml", stage := 2,
        resume_mode := "specific",
        resume_checkpoint := some "outputs/checkpoints/model_stage_2_epoch_40.pth",
        run_name := none, preserve_logs := false } (fun _ => true)
      freshWithCkpt "python3" "outputs/checkpoints/model_stage_2_epoch_40.pth"
      "").2.2.1 rfl rfl (by decide) rfl
  · constructor <;> decide
  · exact (start_cmd_resume_encoding sampleRequest (fun _ => true)
      freshWithCkpt "python3" ""
      "outputs/checkpoints/model_stage_1_latest.pth").2.2.2.2.2.1 rfl (by decide)

/-- Re-enqueuing a drained list at the tail of an accumulator appends it. -/
theorem putBack_foldl (l : List QMessage) :
    ∀ acc : List QMessage, l.foldl (fun q m => q ++ [m]) acc = acc ++ l := by
  induction l with
  | nil => intro acc; simp
  | cons m rest ih =>
    intro acc
    rw [List.foldl_cons, ih]
    simp

/-- `putBack` restores exactly the drained list. -/
theorem putBack_eq (l : List QMessage) : putBack l = l := by
  rw [putBack, putBack_foldl]
  simp

/-- The drain pass copies the queue into `temp_queue` unchanged and in
order. -/
theorem drainQueue_fst (q : List QMessage) : (drainQueue q).1 = q := by
  induction q with
  | nil => rfl
  | cons m rest ih =>
    cases m <;> simp [drainQueue, ih]

/-- The logs endpoint leaves the queue exactly as it found it. -/
theorem getTrainingLogs_queue_eq (last_lines : Nat) (q : List QMessage)
    (disk : DiskLogs) : (getTrainingLogs last_lines q disk).queue = q := by
  have h : putBack (drainQueue q).1 = q := by rw [drainQueue_fst, putBack_eq]
  simp only [getTrainingLogs]
  repeat' split
  all_goals simp [h]

/-- **C10** (logs endpoint frame): for every queue content, the logs query
re-enqueues every drained message in the same relative order before
returning, so the Event Bridge queue afterwards holds exactly what it held
before; consequently two consecutive calls with no intervening producer
activity return the same log lines and leave the queue unchanged. -/
theorem logs_endpoint_read_only (last_lines : Nat) (q : List QMessage)
    (disk : DiskLogs) :
    (getTrainingLogs last_lines q disk).queue = q
    ∧ (getTrainingLogs last_lines
        ((getTrainingLogs last_lines q disk).queue) disk).logs =
      (getTrainingLogs last_lines q disk).logs
    ∧ (getTrainingLogs last_lines
        ((getTrainingLogs last_lines q disk).queue) disk).queue = q :=
  ⟨getTrainingLogs_queue_eq last_lines q disk,
    by rw [getTrainingLogs_queue_eq],
    by rw [getTrainingLogs_queue_eq, getTrainingLogs_queue_eq]⟩
